import Mathlib

/-!
Shallow embedding of the duplicate-detection core of the Picture Finder
repository (src/core/image_processor.py), together with theorems settling
the frozen claims about its specification.

Modelling conventions:
* A perceptual fingerprint (`imagehash.ImageHash`) is a bit pattern,
  embedded as `List Bool`; the Hamming distance `hash1 - hash2` counts
  differing bits (all fingerprints produced in one run have the same
  length, coming from one hasher configuration).
* Python dicts keep insertion order, so `defaultdict(list)` /
  `dict` values are embedded as association lists in insertion order.
* File paths are strings; the filesystem, the PIL decoder and the hash
  arithmetic on pixels are abstracted into oracles (`FileModel`,
  `algHash`), while all control flow of the Python code is kept.
* Wall-clock readings and psutil samples are opaque rational parameters.
* The time-varying cancellation flag (`threading.Event`) is embedded as a
  function from a check counter to `Bool`: the n-th call of
  `cancel_flag.is_set()` during a run observes `flag n`.
-/

namespace PictureFinder

abbrev Fingerprint := List Bool

abbrev FilePath' := String

/-- Hamming distance between two fingerprints: number of differing bits
(`hash1 - hash2` on `imagehash.ImageHash`; both operands of a comparison in
this program come from the same hasher and have equal length). -/
def hammingDistance (a b : Fingerprint) : Nat :=
  (List.zip a b).countP (fun p => p.1 ≠ p.2)

/-- The four supported hash algorithms of `ImageHasher.HASH_ALGORITHMS`. -/
inductive HashAlg where
  | average
  | perceptual
  | difference
  | wavelet
  deriving DecidableEq, Repr

/-- The `HASH_ALGORITHMS` lookup table keyed by algorithm name. -/
def HASH_ALGORITHMS : List (String × HashAlg) :=
  [("average", HashAlg.average),
   ("perceptual", HashAlg.perceptual),
   ("difference", HashAlg.difference),
   ("wavelet", HashAlg.wavelet)]

/-- Model of `ImageHasher`: stores the (possibly unrecognized) algorithm name and the
resolved hash function; `HASH_ALGORITHMS.get(algorithm, imagehash.average_hash)`
falls back to the average hash. -/
structure ImageHasher where
  algorithm : String
  hashSize : Nat
  hashFunction : HashAlg
  deriving DecidableEq, Repr

def ImageHasher.init (algorithm : String) (hashSize : Nat := 8) : ImageHasher :=
  { algorithm := algorithm
    hashSize := hashSize
    hashFunction := ((HASH_ALGORITHMS.lookup algorithm).getD HashAlg.average) }

/-- Abstract model of one on-disk file as seen by `ImageHasher.hash_file`:
whether it exists, its byte size, and the decoded image (`none` when PIL
raises `UnidentifiedImageError`). The decoded image is abstracted to an
opaque identifier consumed by the hash oracle. -/
structure FileModel where
  existsOnDisk : Bool
  fileSize : Nat
  decodesTo : Option Nat
  deriving DecidableEq, Repr

/-- Result of `ImageHasher.hash_file`: the optional hash string, the path,
and the `error` entry of the metadata dict. `decodeAttempted` records
whether control reached `Image.open` (used to state that oversized files
are rejected without decoding). -/
structure HashFileResult where
  hash : Option Fingerprint
  path : FilePath'
  errorMsg : Option String
  decodeAttempted : Bool
  deriving DecidableEq, Repr

/-- The hard size ceiling of `hash_file`: 100 MB. -/
def MAX_FILE_SIZE : Nat := 100 * 1024 * 1024

/-- Embedding of `ImageHasher.hash_file` (src/core/image_processor.py lines 95-164),
with decoding and pixel arithmetic abstracted into `algHash` (conversion to
RGB and thumbnailing only change pixels, which the oracle consumes). -/
def ImageHasher.hashFile (algHash : HashAlg → Nat → Nat → Fingerprint)
    (h : ImageHasher) (f : FileModel) (p : FilePath') : HashFileResult :=
  if f.existsOnDisk = false then
    { hash := none, path := p, errorMsg := some "File does not exist",
      decodeAttempted := false }
  else if MAX_FILE_SIZE < f.fileSize then
    { hash := none, path := p, errorMsg := some "File too large (>100MB)",
      decodeAttempted := false }
  else
    match f.decodesTo with
    | none =>
      { hash := none, path := p, errorMsg := some "Not a valid image file",
        decodeAttempted := true }
    | some img =>
      { hash := some (algHash h.hashFunction h.hashSize img), path := p,
        errorMsg := none, decodeAttempted := true }

/-- One entry of a batch result: `(hash_string_or_None, file_path, metadata)`
reduced to the fields the orchestrator reads (`metadata['error']` and the
hash). -/
structure FileOutcome where
  hash : Option Fingerprint
  path : FilePath'
  errorMsg : Option String
  deriving DecidableEq, Repr

/-- Model of `PerformanceMonitor`: rolling histories of CPU and memory percentages
(`update_stats` bounds them to 10 samples; the averages and throttle test
below read them). -/
structure PerformanceMonitor where
  cpuPercentHistory : List ℚ
  memoryPercentHistory : List ℚ
  deriving DecidableEq, Repr

/-- Embedding of `PerformanceMonitor.get_avg_cpu_usage`:
`sum(h)/len(h) if h else 0`. -/
def PerformanceMonitor.getAvgCpuUsage (m : PerformanceMonitor) : ℚ :=
  if m.cpuPercentHistory ≠ [] then
    m.cpuPercentHistory.sum / (m.cpuPercentHistory.length : ℚ)
  else 0

/-- Embedding of `PerformanceMonitor.get_avg_memory_usage`. -/
def PerformanceMonitor.getAvgMemoryUsage (m : PerformanceMonitor) : ℚ :=
  if m.memoryPercentHistory ≠ [] then
    m.memoryPercentHistory.sum / (m.memoryPercentHistory.length : ℚ)
  else 0

/-- Embedding of `PerformanceMonitor.should_throttle(cpu_threshold=90, memory_threshold=85)`:
true when either average exceeds its threshold. -/
def PerformanceMonitor.shouldThrottle (m : PerformanceMonitor)
    (cpuThreshold : ℚ := 90) (memoryThreshold : ℚ := 85) : Bool :=
  decide (cpuThreshold < m.getAvgCpuUsage) ||
    decide (memoryThreshold < m.getAvgMemoryUsage)

/-- Python's `str.lower()`, character by character (all mode names are
ASCII). -/
def strLower (s : String) : String := ⟨s.data.map Char.toLower⟩

/-- Model of `DuplicateDetector` configuration state (the fields the claims read). -/
structure DuplicateDetector where
  similarityThreshold : Int
  hashAlgorithm : String
  performanceMode : String
  deriving DecidableEq, Repr

/-- Embedding of `DuplicateDetector.__init__`: the similarity threshold is clamped by
`max(1, min(20, similarity_threshold))`; the algorithm name is stored
verbatim. -/
def DuplicateDetector.init (similarityThreshold : Int := 10)
    (hashAlgorithm : String := "average")
    (performanceMode : String := "high") : DuplicateDetector :=
  { similarityThreshold := max 1 (min 20 similarityThreshold)
    hashAlgorithm := hashAlgorithm
    performanceMode := strLower performanceMode }

/-- The table `performance_settings[mode]` → (processes, batch_size); an unknown mode
falls back to the `high` settings. `cpuCount` is `multiprocessing.cpu_count()`. -/
def performanceSettings (mode : String) (cpuCount : Nat) : Nat × Nat :=
  if mode = "low" then (1, 50)
  else if mode = "medium" then (2, 200)
  else (min 4 cpuCount, 500)

/-- The `defaultdict(list)` accumulation `duplicates_map[hash_str].append(file_path)`:
append to the bucket of an existing key, else add a new key at the end
(Python dicts preserve insertion order). -/
def insertHash (m : List (Fingerprint × List FilePath'))
    (h : Fingerprint) (p : FilePath') : List (Fingerprint × List FilePath') :=
  match m with
  | [] => [(h, [p])]
  | (k, ps) :: rest =>
    if k = h then (k, ps ++ [p]) :: rest else (k, ps) :: insertHash rest h p

/-- The result-grouping step of the batch loop (lines 322-329): each outcome
increments `processed_files`; an outcome with an error increments `errors`;
otherwise a present hash is appended to its bucket. -/
def accumOutcome (st : List (Fingerprint × List FilePath') × Nat × Nat)
    (o : FileOutcome) : List (Fingerprint × List FilePath') × Nat × Nat :=
  match o.errorMsg with
  | some _ => (st.1, st.2.1 + 1, st.2.2 + 1)
  | none =>
    match o.hash with
    | some h => (insertHash st.1 h o.path, st.2.1 + 1, st.2.2)
    | none => (st.1, st.2.1 + 1, st.2.2)

/-- The seed-anchored single-link merge loop of
`_apply_similarity_threshold` (lines 424-461).  The Python loop walks the
(insertion-ordered) bucket map keeping a `processed_hashes` set; every
entry before the current seed is already processed, so the walk is
equivalent to this recursion on the list of still-unprocessed entries: the
seed absorbs every later unprocessed bucket within `threshold` of the seed
fingerprint, and a group is emitted only when it has more than one file. -/
def mergeGroupsAux (threshold : Int) :
    Nat → List (Fingerprint × List FilePath') → List (Fingerprint × List FilePath')
  | _, [] => []
  | 0, _ :: _ => []
  | fuel + 1, (h1, fs1) :: rest =>
    let absorbed := rest.filter (fun q => (hammingDistance h1 q.1 : Int) ≤ threshold)
    let remaining := rest.filter (fun q => ¬ (hammingDistance h1 q.1 : Int) ≤ threshold)
    let groupFiles := fs1 ++ (absorbed.map (fun q => q.2)).flatten
    (if 1 < groupFiles.length then [(h1, groupFiles)] else []) ++
      mergeGroupsAux threshold fuel remaining

/-- The merge loop with enough fuel to process every entry (each step
consumes at least the seed entry). -/
def mergeGroups (threshold : Int)
    (hashToFiles : List (Fingerprint × List FilePath')) :
    List (Fingerprint × List FilePath') :=
  mergeGroupsAux threshold hashToFiles.length hashToFiles

/-- Embedding of `DuplicateDetector._apply_similarity_threshold`: returns the input
unchanged when the threshold is ≤ 0, else merges near-duplicate buckets
(hex-string parsing of the keys is a bijection on well-formed hashes and is
elided). -/
def applySimilarityThreshold (threshold : Int)
    (duplicateGroups : List (Fingerprint × List FilePath')) :
    List (Fingerprint × List FilePath') :=
  if threshold ≤ 0 then duplicateGroups else mergeGroups threshold duplicateGroups

/-- Lines 344-353 of `find_duplicates`: keep only buckets with more than
one file, then apply the similarity merge when the threshold is positive. -/
def groupsPipeline (threshold : Int)
    (duplicatesMap : List (Fingerprint × List FilePath')) :
    List (Fingerprint × List FilePath') :=
  let duplicateGroups := duplicatesMap.filter (fun g => 1 < g.2.length)
  if 0 < threshold then applySimilarityThreshold threshold duplicateGroups
  else duplicateGroups

/-- Embedding of `DuplicateDetector._process_batch_sequential` (lines 374-382): before
each file the cancellation flag is polled (one check per file, numbered by
the running counter `t`); a set flag breaks out of the batch, otherwise the
file is hashed and appended.  Returns the outcomes and the next check
number. -/
def processBatchSequential (hashFn : FilePath' → FileOutcome) (flag : Nat → Bool) :
    Nat → List FilePath' → List FileOutcome × Nat
  | t, [] => ([], t)
  | t, p :: rest =>
    if flag t then ([], t + 1)
    else
      let r := processBatchSequential hashFn flag (t + 1) rest
      (hashFn p :: r.1, r.2)

/-- Embedding of `DuplicateDetector._process_batch_multiprocessing` (lines 384-404):
when the pool works, `starmap` applies `hash_file` to every path in order
(no cancellation checks inside); on any exception the batch falls back to
the sequential path. `poolOk` abstracts whether pool creation and dispatch
succeed for this call. -/
def processBatchMultiprocessing (poolOk : Bool) (hashFn : FilePath' → FileOutcome)
    (flag : Nat → Bool) (t : Nat) (paths : List FilePath') : List FileOutcome × Nat :=
  if poolOk then (paths.map hashFn, t)
  else processBatchSequential hashFn flag t paths

/-- Embedding of `DuplicateDetector._process_batch` (lines 367-372): multiprocessing when
more than one process is configured and the batch exceeds 10 files,
sequential otherwise. -/
def processBatch (processes : Nat) (poolOk : Bool) (hashFn : FilePath' → FileOutcome)
    (flag : Nat → Bool) (t : Nat) (paths : List FilePath') : List FileOutcome × Nat :=
  if 1 < processes ∧ 10 < paths.length then
    processBatchMultiprocessing poolOk hashFn flag t paths
  else processBatchSequential hashFn flag t paths

/-- Fuel-driven chunking; with positive chunk size and fuel ≥ length it
yields the slices `image_files[i:i+chunk]` of line 274-277. -/
def chunkListAux (chunk : Nat) : Nat → List FilePath' → List (List FilePath')
  | _, [] => []
  | 0, _ :: _ => []
  | fuel + 1, x :: xs =>
    (x :: xs).take chunk :: chunkListAux chunk fuel ((x :: xs).drop chunk)

/-- The batch list `[image_files[i:i+chunk_size] for i in range(0, len, chunk_size)]`. -/
def chunkList (chunk : Nat) (xs : List FilePath') : List (List FilePath') :=
  chunkListAux chunk xs.length xs

/-- A value of the Python stats dict. -/
inductive StatVal where
  | nat (n : Nat)
  | int (z : Int)
  | rat (q : ℚ)
  | str (s : String)
  deriving DecidableEq, Repr

/-- Mutable state threaded through the batch loop of `find_duplicates`:
the bucket map, the `processed_files` and `errors` counters, the progress
reports delivered to the sink so far, and the cancellation-check counter. -/
structure LoopState where
  dmap : List (Fingerprint × List FilePath')
  processed : Nat
  errors : Nat
  reports : List (Nat × Nat × String)
  t : Nat
  deriving DecidableEq, Repr

/-- The progress message `f"Processing batch {batch_idx + 1}/{len(file_batches)}"`. -/
def batchMessage (idx numBatches : Nat) : String :=
  "Processing batch " ++ toString (idx + 1) ++ "/" ++ toString numBatches

/-- The batch loop of `find_duplicates` (lines 282-342).  Per batch: poll
the cancellation flag (a set flag breaks the loop, keeping everything
accumulated so far); report `(processed_files, total_files, message)` to
the progress sink *before* processing the batch; process the batch; fold
its outcomes into the bucket map and counters.  Throttling sleeps, ETA
logging and gc hints do not affect the returned data and are elided. -/
def batchLoop (poolOk : Nat → Bool) (flag : Nat → Bool)
    (hashFn : FilePath' → FileOutcome) (processes totalFiles numBatches : Nat) :
    Nat → List (List FilePath') → LoopState → LoopState
  | _, [], st => st
  | idx, batch :: rest, st =>
    if flag st.t then { st with t := st.t + 1 }
    else
      let report := (st.processed, totalFiles, batchMessage idx numBatches)
      let pr := processBatch processes (poolOk idx) hashFn flag (st.t + 1) batch
      let acc := pr.1.foldl accumOutcome (st.dmap, st.processed, st.errors)
      batchLoop poolOk flag hashFn processes totalFiles numBatches (idx + 1) rest
        { dmap := acc.1, processed := acc.2.1, errors := acc.2.2,
          reports := st.reports ++ [report], t := pr.2 }

/-- What `find_duplicates` produces: the returned `(duplicate_groups, stats)`
pair plus the sequence of progress-sink invocations. -/
structure RunResult where
  duplicateGroups : List (Fingerprint × List FilePath')
  stats : List (String × StatVal)
  progressReports : List (Nat × Nat × String)
  deriving DecidableEq, Repr

/-- Lines 250-257 of `find_duplicates`: the batch size defaults to the
performance-mode setting, and is clamped to ≤ 50 when memory pressure is
above 80 %. -/
def effectiveChunkSize (d : DuplicateDetector) (cpuCount : Nat)
    (chunkSizeArg : Option Nat) (memoryPercent : ℚ) : Nat :=
  let chunk0 := chunkSizeArg.getD (performanceSettings d.performanceMode cpuCount).2
  if (80 : ℚ) < memoryPercent then min chunk0 50 else chunk0

/-- Lines 344-365 of `find_duplicates`: filter/merge the bucket map into the
final duplicate groups and assemble the stats dict (keys in construction
order; `duplicate_groups` and `total_duplicates` are added at the end). -/
def finishRun (d : DuplicateDetector) (elapsed memoryUsageMb : ℚ)
    (numVideos totalFiles : Nat) (dmap : List (Fingerprint × List FilePath'))
    (processed errors : Nat) (reports : List (Nat × Nat × String)) : RunResult :=
  let duplicateGroups := groupsPipeline d.similarityThreshold dmap
  let totalDuplicates := (duplicateGroups.map (fun g => g.2.length)).sum
  { duplicateGroups := duplicateGroups
    stats := [("total_files", StatVal.nat totalFiles),
      ("processed_files", StatVal.nat processed),
      ("errors", StatVal.nat errors),
      ("videos_separated", StatVal.nat numVideos),
      ("processing_time", StatVal.rat elapsed),
      ("avg_time_per_file", StatVal.rat (elapsed / (max 1 processed : ℚ))),
      ("memory_usage_mb", StatVal.rat memoryUsageMb),
      ("hash_algorithm", StatVal.str d.hashAlgorithm),
      ("similarity_threshold", StatVal.int d.similarityThreshold),
      ("duplicate_groups", StatVal.nat duplicateGroups.length),
      ("total_duplicates", StatVal.nat totalDuplicates)]
    progressReports := reports }

/-- Embedding of `DuplicateDetector.find_duplicates` (lines 209-365) over the list of
image files the external file manager yields (videos already removed).
`hashFn` is the per-path outcome of `ImageHasher.hash_file` (a pure
function of the file's content), `poolOk idx` tells whether the worker pool
works for batch `idx`, `flag` is the cancellation flag indexed by check
number, and `elapsed`, `memoryUsageMb`, `memoryPercent` stand for the
wall-clock and psutil readings. -/
def findDuplicates (cpuCount : Nat) (poolOk : Nat → Bool) (flag : Nat → Bool)
    (hashFn : FilePath' → FileOutcome) (elapsed memoryUsageMb memoryPercent : ℚ)
    (d : DuplicateDetector) (imageFiles : List FilePath') (numVideos : Nat)
    (chunkSizeArg : Option Nat) : RunResult :=
  let totalFiles := imageFiles.length
  if totalFiles = 0 then
    { duplicateGroups := []
      stats := [("total_files", StatVal.nat 0), ("processing_time", StatVal.rat elapsed)]
      progressReports := [] }
  else
    let fileBatches := chunkList (effectiveChunkSize d cpuCount chunkSizeArg memoryPercent)
      imageFiles
    let finalState := batchLoop poolOk flag hashFn
      (performanceSettings d.performanceMode cpuCount).1 totalFiles
      fileBatches.length 0 fileBatches
      { dmap := [], processed := 0, errors := 0, reports := [], t := 0 }
    finishRun d elapsed memoryUsageMb numVideos totalFiles
      finalState.dmap finalState.processed finalState.errors finalState.reports

end PictureFinder



namespace PictureFinder

/-! ### Concrete instances used by closed counterexamples and witnesses -/

/-- An 8-bit fingerprint with five bits set. -/
def fpFive : Fingerprint := [true, true, true, true, true, false, false, false]

/-- The all-zero 8-bit fingerprint; `hammingDistance fpFive fpZero = 5`. -/
def fpZero : Fingerprint := List.replicate 8 false

/-- A filesystem in which `a.jpg` hashes to `fpFive` and every other path
to `fpZero`: two valid images whose fingerprints differ by Hamming
distance 5. -/
def hashFnPair : FilePath' → FileOutcome := fun p =>
  if p = "a.jpg" then { hash := some fpFive, path := p, errorMsg := none }
  else { hash := some fpZero, path := p, errorMsg := none }

/-- A filesystem in which every path is a valid image with fingerprint
`fpFive` (so all files are exact duplicates of one another). -/
def hashFnConst : FilePath' → FileOutcome := fun p =>
  { hash := some fpFive, path := p, errorMsg := none }

/-- A cancellation flag that an external caller sets between the second and
third poll of the run: checks 0 and 1 observe it clear, every later check
observes it set. -/
def cancelFromCheckTwo : Nat → Bool := fun t => decide (2 ≤ t)

/-- A cancellation flag that is never set. -/
def neverCancel : Nat → Bool := fun _ => false

/-- A worker pool that always works. -/
def poolAlwaysOk : Nat → Bool := fun _ => true

/-- A worker pool whose creation/dispatch fails on every batch. -/
def poolAlwaysFails : Nat → Bool := fun _ => false

/-- A list of `n` distinct file names `f0, f1, ...`. -/
def mkFiles (n : Nat) : List FilePath' :=
  (List.range n).map (fun i => "f" ++ toString i)

/-- Arithmetic mirror of `chunkListAux`: the batch sizes produced when
chunking a list of the given length. -/
def natChunksAux (chunk : Nat) : Nat → Nat → List Nat
  | _, 0 => []
  | 0, _ + 1 => []
  | fuel + 1, n + 1 => min chunk (n + 1) :: natChunksAux chunk fuel (n + 1 - chunk)

end PictureFinder

namespace PictureFinder

/-- Proof helper: the sequence of progress reports a cancellation-free run
delivers, driven only by the batch sizes — each report carries the file
count completed *before* its batch. -/
def expectedReports (totalFiles nb : Nat) : List Nat → Nat → Nat → List (Nat × Nat × String)
  | [], _, _ => []
  | len :: rest, idx, done =>
    (done, totalFiles, batchMessage idx nb) ::
      expectedReports totalFiles nb rest (idx + 1) (done + len)

/-! ### Basic lemmas about the batch executor -/

theorem processBatchSequential_noflag (hashFn : FilePath' → FileOutcome)
    (ps : List FilePath') : ∀ t : Nat,
    processBatchSequential hashFn (fun _ => false) t ps = (ps.map hashFn, t + ps.length) := by
  induction ps with
  | nil => intro t; simp [processBatchSequential]
  | cons p rest ih =>
    intro t
    simp [processBatchSequential, ih (t + 1)]
    omega

theorem processBatch_fst_noflag (procs : Nat) (ok : Bool)
    (hashFn : FilePath' → FileOutcome) (t : Nat) (ps : List FilePath') :
    (processBatch procs ok hashFn (fun _ => false) t ps).1 = ps.map hashFn := by
  unfold processBatch processBatchMultiprocessing
  split
  · split
    · rfl
    · simp [processBatchSequential_noflag]
  · simp [processBatchSequential_noflag]

theorem accumOutcome_processed (st : List (Fingerprint × List FilePath') × Nat × Nat)
    (o : FileOutcome) : (accumOutcome st o).2.1 = st.2.1 + 1 := by
  cases h1 : o.errorMsg <;> cases h2 : o.hash <;> simp [accumOutcome, h1, h2]

theorem foldl_accumOutcome_processed (os : List FileOutcome) :
    ∀ st, (os.foldl accumOutcome st).2.1 = st.2.1 + os.length := by
  induction os with
  | nil => intro st; simp
  | cons o rest ih =>
    intro st
    rw [List.foldl_cons, ih, accumOutcome_processed]
    simp [List.length_cons]
    omega

theorem batchLoop_cancelled (ok flag : Nat → Bool) (hashFn : FilePath' → FileOutcome)
    (procs totalFiles nb idx : Nat) (b : List FilePath')
    (rest : List (List FilePath')) (st : LoopState) (h : flag st.t = true) :
    batchLoop ok flag hashFn procs totalFiles nb idx (b :: rest) st
      = { st with t := st.t + 1 } := by
  simp [batchLoop, h]

theorem batchLoop_cons (ok flag : Nat → Bool) (hashFn : FilePath' → FileOutcome)
    (procs totalFiles nb idx : Nat) (b : List FilePath')
    (rest : List (List FilePath')) (st : LoopState) (h : flag st.t = false) :
    batchLoop ok flag hashFn procs totalFiles nb idx (b :: rest) st
      = batchLoop ok flag hashFn procs totalFiles nb (idx + 1) rest
          { dmap := ((processBatch procs (ok idx) hashFn flag (st.t + 1) b).1.foldl
              accumOutcome (st.dmap, st.processed, st.errors)).1,
            processed := ((processBatch procs (ok idx) hashFn flag (st.t + 1) b).1.foldl
              accumOutcome (st.dmap, st.processed, st.errors)).2.1,
            errors := ((processBatch procs (ok idx) hashFn flag (st.t + 1) b).1.foldl
              accumOutcome (st.dmap, st.processed, st.errors)).2.2,
            reports := st.reports ++ [(st.processed, totalFiles, batchMessage idx nb)],
            t := (processBatch procs (ok idx) hashFn flag (st.t + 1) b).2 } := by
  simp [batchLoop, h]

theorem batchLoop_noflag_reports (ok : Nat → Bool) (hashFn : FilePath' → FileOutcome)
    (procs totalFiles nb : Nat) :
    ∀ (batches : List (List FilePath')) (idx : Nat) (st : LoopState),
    (batchLoop ok (fun _ => false) hashFn procs totalFiles nb idx batches st).reports
      = st.reports ++ expectedReports totalFiles nb (batches.map List.length) idx st.processed := by
  intro batches
  induction batches with
  | nil => intro idx st; simp [batchLoop, expectedReports]
  | cons b rest ih =>
    intro idx st
    rw [batchLoop_cons _ _ _ _ _ _ _ _ _ _ rfl, ih]
    rw [processBatch_fst_noflag, foldl_accumOutcome_processed]
    simp [expectedReports, List.append_assoc]

theorem batchLoop_noflag_processed (ok : Nat → Bool) (hashFn : FilePath' → FileOutcome)
    (procs totalFiles nb : Nat) :
    ∀ (batches : List (List FilePath')) (idx : Nat) (st : LoopState),
    (batchLoop ok (fun _ => false) hashFn procs totalFiles nb idx batches st).processed
      = st.processed + (batches.map List.length).sum := by
  intro batches
  induction batches with
  | nil => intro idx st; simp [batchLoop]
  | cons b rest ih =>
    intro idx st
    rw [batchLoop_cons _ _ _ _ _ _ _ _ _ _ rfl, ih]
    rw [processBatch_fst_noflag, foldl_accumOutcome_processed]
    simp [List.length_map]
    omega

theorem chunkListAux_map_length (chunk : Nat) :
    ∀ (fuel : Nat) (xs : List FilePath'),
    (chunkListAux chunk fuel xs).map List.length = natChunksAux chunk fuel xs.length := by
  intro fuel
  induction fuel with
  | zero =>
    intro xs
    cases xs <;> simp [chunkListAux, natChunksAux]
  | succ f ih =>
    intro xs
    cases xs with
    | nil => simp [chunkListAux, natChunksAux]
    | cons x rest =>
      simp only [chunkListAux, natChunksAux, List.map_cons, List.length_cons,
        List.length_take, List.length_cons, ih, List.length_drop]

theorem mkFiles_length (n : Nat) : (mkFiles n).length = n := by
  simp [mkFiles]

end PictureFinder

namespace PictureFinder

theorem batchLoop_poolOk_irrel (ok1 ok2 : Nat → Bool) (hashFn : FilePath' → FileOutcome)
    (procs totalFiles nb : Nat) :
    ∀ (batches : List (List FilePath')) (idx : Nat) (st1 st2 : LoopState),
    st1.dmap = st2.dmap → st1.processed = st2.processed → st1.errors = st2.errors →
    st1.reports = st2.reports →
    (batchLoop ok1 (fun _ => false) hashFn procs totalFiles nb idx batches st1).dmap
        = (batchLoop ok2 (fun _ => false) hashFn procs totalFiles nb idx batches st2).dmap
      ∧ (batchLoop ok1 (fun _ => false) hashFn procs totalFiles nb idx batches st1).processed
        = (batchLoop ok2 (fun _ => false) hashFn procs totalFiles nb idx batches st2).processed
      ∧ (batchLoop ok1 (fun _ => false) hashFn procs totalFiles nb idx batches st1).errors
        = (batchLoop ok2 (fun _ => false) hashFn procs totalFiles nb idx batches st2).errors
      ∧ (batchLoop ok1 (fun _ => false) hashFn procs totalFiles nb idx batches st1).reports
        = (batchLoop ok2 (fun _ => false) hashFn procs totalFiles nb idx batches st2).reports := by
  intro batches
  induction batches with
  | nil =>
    intro idx st1 st2 h1 h2 h3 h4
    simp [batchLoop]
    exact ⟨h1, h2, h3, h4⟩
  | cons b rest ih =>
    intro idx st1 st2 h1 h2 h3 h4
    rw [batchLoop_cons _ _ _ _ _ _ _ _ _ _ rfl, batchLoop_cons _ _ _ _ _ _ _ _ _ _ rfl]
    apply ih <;> simp [processBatch_fst_noflag, h1, h2, h3, h4]

theorem mergeGroupsAux_mem (threshold : Int) :
    ∀ (fuel : Nat) (l : List (Fingerprint × List FilePath'))
      (g : Fingerprint × List FilePath'),
    g ∈ mergeGroupsAux threshold fuel l → 1 < g.2.length := by
  intro fuel
  induction fuel with
  | zero =>
    intro l g hg
    cases l <;> simp [mergeGroupsAux] at hg
  | succ f ih =>
    intro l g hg
    cases l with
    | nil => simp [mergeGroupsAux] at hg
    | cons e rest =>
      obtain ⟨h1, fs1⟩ := e
      simp only [mergeGroupsAux] at hg
      rcases List.mem_append.mp hg with h | h
      · by_cases hl : 1 < (fs1 ++ (List.map (fun q => q.2)
            (rest.filter (fun q => (hammingDistance h1 q.1 : Int) ≤ threshold))).flatten).length
        · rw [if_pos hl] at h
          simp only [List.mem_singleton] at h
          subst h
          simpa using hl
        · rw [if_neg hl] at h
          simp at h
      · exact ih _ g h

theorem mergeGroups_mem (threshold : Int) (l : List (Fingerprint × List FilePath'))
    (g : Fingerprint × List FilePath') (hg : g ∈ mergeGroups threshold l) :
    1 < g.2.length :=
  mergeGroupsAux_mem threshold l.length l g hg

theorem groupsPipeline_mem (threshold : Int)
    (m : List (Fingerprint × List FilePath'))
    (g : Fingerprint × List FilePath') (hg : g ∈ groupsPipeline threshold m) :
    1 < g.2.length := by
  have hfilter : ∀ g', g' ∈ m.filter (fun x => 1 < x.2.length) → 1 < g'.2.length := by
    intro g' hmem
    have := (List.mem_filter.mp hmem).2
    simpa using this
  simp only [groupsPipeline] at hg
  by_cases ht : 0 < threshold
  · rw [if_pos ht] at hg
    simp only [applySimilarityThreshold] at hg
    by_cases hle : threshold ≤ 0
    · rw [if_pos hle] at hg
      exact hfilter g hg
    · rw [if_neg hle] at hg
      exact mergeGroups_mem threshold _ g hg
  · rw [if_neg ht] at hg
    exact hfilter g hg

theorem groupsPipeline_all_singletons (threshold : Int)
    (m : List (Fingerprint × List FilePath'))
    (hm : ∀ g ∈ m, g.2.length ≤ 1) : groupsPipeline threshold m = [] := by
  have hfilter : m.filter (fun x => 1 < x.2.length) = [] := by
    rw [List.filter_eq_nil_iff]
    intro a ha
    simpa using Nat.not_lt.mpr (hm a ha)
  simp only [groupsPipeline, hfilter]
  by_cases ht : 0 < threshold
  · rw [if_pos ht]
    simp [applySimilarityThreshold, mergeGroups, mergeGroupsAux]
  · rw [if_neg ht]

end PictureFinder

namespace PictureFinder

theorem findDuplicates_nonempty (cpuCount : Nat) (poolOk flag : Nat → Bool)
    (hashFn : FilePath' → FileOutcome) (elapsed memoryUsageMb memoryPercent : ℚ)
    (d : DuplicateDetector) (imageFiles : List FilePath') (numVideos : Nat)
    (chunkSizeArg : Option Nat) (h : imageFiles.length ≠ 0) :
    findDuplicates cpuCount poolOk flag hashFn elapsed memoryUsageMb memoryPercent
        d imageFiles numVideos chunkSizeArg
      = finishRun d elapsed memoryUsageMb numVideos imageFiles.length
          (batchLoop poolOk flag hashFn (performanceSettings d.performanceMode cpuCount).1
            imageFiles.length
            (chunkList (effectiveChunkSize d cpuCount chunkSizeArg memoryPercent) imageFiles).length
            0 (chunkList (effectiveChunkSize d cpuCount chunkSizeArg memoryPercent) imageFiles)
            { dmap := [], processed := 0, errors := 0, reports := [], t := 0 }).dmap
          (batchLoop poolOk flag hashFn (performanceSettings d.performanceMode cpuCount).1
            imageFiles.length
            (chunkList (effectiveChunkSize d cpuCount chunkSizeArg memoryPercent) imageFiles).length
            0 (chunkList (effectiveChunkSize d cpuCount chunkSizeArg memoryPercent) imageFiles)
            { dmap := [], processed := 0, errors := 0, reports := [], t := 0 }).processed
          (batchLoop poolOk flag hashFn (performanceSettings d.performanceMode cpuCount).1
            imageFiles.length
            (chunkList (effectiveChunkSize d cpuCount chunkSizeArg memoryPercent) imageFiles).length
            0 (chunkList (effectiveChunkSize d cpuCount chunkSizeArg memoryPercent) imageFiles)
            { dmap := [], processed := 0, errors := 0, reports := [], t := 0 }).errors
          (batchLoop poolOk flag hashFn (performanceSettings d.performanceMode cpuCount).1
            imageFiles.length
            (chunkList (effectiveChunkSize d cpuCount chunkSizeArg memoryPercent) imageFiles).length
            0 (chunkList (effectiveChunkSize d cpuCount chunkSizeArg memoryPercent) imageFiles)
            { dmap := [], processed := 0, errors := 0, reports := [], t := 0 }).reports := by
  simp only [findDuplicates]
  rw [if_neg h]

theorem finishRun_lookup_processed (d : DuplicateDetector) (elapsed memoryUsageMb : ℚ)
    (numVideos totalFiles : Nat) (dmap : List (Fingerprint × List FilePath'))
    (processed errors : Nat) (reports : List (Nat × Nat × String)) :
    (finishRun d elapsed memoryUsageMb numVideos totalFiles dmap processed errors
        reports).stats.lookup "processed_files" = some (StatVal.nat processed) := by
  simp [finishRun, List.lookup]

theorem finishRun_lookup_hashAlgorithm (d : DuplicateDetector) (elapsed memoryUsageMb : ℚ)
    (numVideos totalFiles : Nat) (dmap : List (Fingerprint × List FilePath'))
    (processed errors : Nat) (reports : List (Nat × Nat × String)) :
    (finishRun d elapsed memoryUsageMb numVideos totalFiles dmap processed errors
        reports).stats.lookup "hash_algorithm" = some (StatVal.str d.hashAlgorithm) := by
  simp [finishRun, List.lookup]

theorem finishRun_stats_keys (d : DuplicateDetector) (elapsed memoryUsageMb : ℚ)
    (numVideos totalFiles : Nat) (dmap : List (Fingerprint × List FilePath'))
    (processed errors : Nat) (reports : List (Nat × Nat × String)) :
    (finishRun d elapsed memoryUsageMb numVideos totalFiles dmap processed errors
        reports).stats.map Prod.fst
      = ["total_files", "processed_files", "errors", "videos_separated",
         "processing_time", "avg_time_per_file", "memory_usage_mb", "hash_algorithm",
         "similarity_threshold", "duplicate_groups", "total_duplicates"] := by
  simp [finishRun]

end PictureFinder

namespace PictureFinder

/-- C1 (counterexample): in a run over exactly two valid images whose
fingerprints differ by Hamming distance 5, with similarity threshold 10,
the result contains NO duplicate group — the two single-file exact-match
buckets are not absorbed into one group, contrary to the claim. -/
theorem c1_counterexample :
    hammingDistance fpFive fpZero = 5
    ∧ (DuplicateDetector.init 10 "average" "high").similarityThreshold = 10
    ∧ (findDuplicates 4 poolAlwaysOk neverCancel hashFnPair 0 0 0
        (DuplicateDetector.init 10 "average" "high") ["a.jpg", "b.jpg"] 0
        none).duplicateGroups = [] := by
  refine ⟨by decide, by decide, by decide⟩

/-- C1 (amended): exact-match buckets of size ≤ 1 are discarded by
`find_duplicates` before the similarity merge runs, so when every bucket is
a singleton — as for two valid images with distinct fingerprints — the
grouping pipeline emits no duplicate group at any threshold; singleton
buckets never participate in the single-link merge. -/
theorem c1_singletons_never_merged (threshold : Int)
    (duplicatesMap : List (Fingerprint × List FilePath'))
    (hm : ∀ g ∈ duplicatesMap, g.2.length ≤ 1) :
    groupsPipeline threshold duplicatesMap = [] :=
  groupsPipeline_all_singletons threshold duplicatesMap hm

/-- C1 (witness): the amended theorem applied to the two singleton buckets
of the near-duplicate scenario. -/
theorem c1_witness :
    (∀ g ∈ [(fpFive, ["a.jpg"]), (fpZero, ["b.jpg"])],
      g.2.length ≤ 1)
    ∧ groupsPipeline 10 [(fpFive, ["a.jpg"]), (fpZero, ["b.jpg"])] = [] :=
  ⟨by decide, c1_singletons_never_merged 10 _ (by decide)⟩

/-- C2 (counterexample): a similarity threshold of 0 supplied at
construction does NOT remain 0 — `max(1, min(20, 0))` stores 1. -/
theorem c2_counterexample :
    (DuplicateDetector.init 0 "average" "high").similarityThreshold = 1
    ∧ ¬ (DuplicateDetector.init 0 "average" "high").similarityThreshold = 0 := by
  refine ⟨by decide, by decide⟩

/-- C2 (amended): the threshold supplied at construction is clamped into
1–20 (a supplied 0 becomes 1, so a stored threshold of 0 is unreachable
through the constructor); values already in 1–20 are kept; and the grouping
pipeline at threshold 0 would yield exactly the exact-match buckets with
≥ 2 members, with no Hamming-distance merging performed. -/
theorem c2_threshold_clamped (t : Int) (alg mode : String)
    (duplicatesMap : List (Fingerprint × List FilePath')) :
    1 ≤ (DuplicateDetector.init t alg mode).similarityThreshold
    ∧ (DuplicateDetector.init t alg mode).similarityThreshold ≤ 20
    ∧ (1 ≤ t → t ≤ 20 → (DuplicateDetector.init t alg mode).similarityThreshold = t)
    ∧ (DuplicateDetector.init 0 alg mode).similarityThreshold = 1
    ∧ groupsPipeline 0 duplicatesMap
        = duplicatesMap.filter (fun g => 1 < g.2.length) := by
  refine ⟨le_max_left _ _, max_le (by norm_num) (min_le_left _ _), ?_,
    by norm_num [DuplicateDetector.init], ?_⟩
  · intro h1 h2
    simp [DuplicateDetector.init, min_eq_right h2, max_eq_right h1]
  · simp [groupsPipeline]

/-- C2 (witness): the amended theorem applied at threshold 5. -/
theorem c2_witness :
    (1 : Int) ≤ 5 ∧ (5 : Int) ≤ 20
    ∧ (DuplicateDetector.init 5 "average" "high").similarityThreshold = 5 :=
  ⟨by decide, by decide,
    (c2_threshold_clamped 5 "average" "high" []).2.2.1 (by decide) (by decide)⟩

/-- C6: the Performance Sampler's averages are 0 on an empty window (no
division by zero), and `should_throttle` is true exactly when the average
CPU exceeds its threshold or the average memory exceeds its threshold, the
defaults being 90 % CPU and 85 % memory. -/
theorem c6_sampler_averages_and_throttle (m : PerformanceMonitor) :
    (m.cpuPercentHistory = [] → m.getAvgCpuUsage = 0)
    ∧ (m.memoryPercentHistory = [] → m.getAvgMemoryUsage = 0)
    ∧ (∀ cpuThreshold memoryThreshold : ℚ,
        m.shouldThrottle cpuThreshold memoryThreshold = true
          ↔ (cpuThreshold < m.getAvgCpuUsage ∨ memoryThreshold < m.getAvgMemoryUsage))
    ∧ (m.shouldThrottle = true
        ↔ (90 < m.getAvgCpuUsage ∨ 85 < m.getAvgMemoryUsage)) := by
  refine ⟨?_, ?_, ?_, ?_⟩
  · intro h; simp [PerformanceMonitor.getAvgCpuUsage, h]
  · intro h; simp [PerformanceMonitor.getAvgMemoryUsage, h]
  · intro ct mt; simp [PerformanceMonitor.shouldThrottle]
  · simp [PerformanceMonitor.shouldThrottle]

/-- C6 (witness): the theorem applied to an empty sampler and the
hypotheses discharged there. -/
theorem c6_witness :
    PerformanceMonitor.getAvgCpuUsage ⟨[], []⟩ = 0
    ∧ PerformanceMonitor.getAvgMemoryUsage ⟨[], []⟩ = 0 :=
  ⟨(c6_sampler_averages_and_throttle ⟨[], []⟩).1 rfl,
   (c6_sampler_averages_and_throttle ⟨[], []⟩).2.1 rfl⟩

/-- C8: an existing file whose size exceeds the 100 MB ceiling is rejected
by `hash_file` with the too-large error, no fingerprint, and without the
decoder ever being invoked. -/
theorem c8_too_large_rejected (algHash : HashAlg → Nat → Nat → Fingerprint)
    (h : ImageHasher) (f : FileModel) (p : FilePath')
    (hex : f.existsOnDisk = true) (hsize : MAX_FILE_SIZE < f.fileSize) :
    ImageHasher.hashFile algHash h f p
      = { hash := none, path := p, errorMsg := some "File too large (>100MB)",
          decodeAttempted := false } := by
  simp [ImageHasher.hashFile, hex, hsize]

/-- C8 (witness): the theorem applied to a 100 MB + 1 byte file. -/
theorem c8_witness :
    (FileModel.mk true (100 * 1024 * 1024 + 1) (some 0)).existsOnDisk = true
    ∧ MAX_FILE_SIZE < (FileModel.mk true (100 * 1024 * 1024 + 1) (some 0)).fileSize
    ∧ ImageHasher.hashFile (fun _ _ _ => []) (ImageHasher.init "average" 8)
        (FileModel.mk true (100 * 1024 * 1024 + 1) (some 0)) "big.jpg"
      = { hash := none, path := "big.jpg",
          errorMsg := some "File too large (>100MB)", decodeAttempted := false } :=
  ⟨rfl, by decide,
   c8_too_large_rejected (fun _ _ _ => []) (ImageHasher.init "average" 8)
     (FileModel.mk true (100 * 1024 * 1024 + 1) (some 0)) "big.jpg" rfl (by decide)⟩

end PictureFinder

namespace PictureFinder

/-- C4 (counterexample): cancellation is NOT only batch-granular.  A run in
low-performance mode over one batch of three valid images, with the
cancellation flag set after the second poll (one batch-boundary check plus
one per-file check), fingerprints only the first file of the in-progress
batch: `processed_files` is 1, not 3. -/
theorem c4_counterexample :
    (findDuplicates 4 poolAlwaysOk cancelFromCheckTwo hashFnConst 0 0 0
        (DuplicateDetector.init 10 "average" "low") ["a.jpg", "b.jpg", "c.jpg"] 0
        none).stats.lookup "processed_files" = some (StatVal.nat 1)
    ∧ ¬ (findDuplicates 4 poolAlwaysOk cancelFromCheckTwo hashFnConst 0 0 0
        (DuplicateDetector.init 10 "average" "low") ["a.jpg", "b.jpg", "c.jpg"] 0
        none).stats.lookup "processed_files" = some (StatVal.nat 3) := by
  refine ⟨by decide, by decide⟩

/-- C4 (amended): cancellation is cooperative and never raises, but it is
checked both at batch boundaries and before every file of a sequentially
processed batch: a flag observed set at a batch boundary stops the loop,
returning exactly the state accumulated so far, while a flag observed set
before a file inside a sequential batch skips that file and the remainder
of the batch; an unset flag lets the file be fingerprinted. -/
theorem c4_cancellation_checked_per_file (ok flag : Nat → Bool)
    (hashFn : FilePath' → FileOutcome) (procs totalFiles nb idx : Nat)
    (b : List FilePath') (rest : List (List FilePath')) (st : LoopState)
    (p : FilePath') (ps : List FilePath') (t : Nat) :
    (flag st.t = true →
      batchLoop ok flag hashFn procs totalFiles nb idx (b :: rest) st
        = { st with t := st.t + 1 })
    ∧ (flag t = true →
      processBatchSequential hashFn flag t (p :: ps) = ([], t + 1))
    ∧ (flag t = false →
      processBatchSequential hashFn flag t (p :: ps)
        = (hashFn p :: (processBatchSequential hashFn flag (t + 1) ps).1,
           (processBatchSequential hashFn flag (t + 1) ps).2)) := by
  refine ⟨?_, ?_, ?_⟩
  · intro h
    exact batchLoop_cancelled ok flag hashFn procs totalFiles nb idx b rest st h
  · intro h
    simp [processBatchSequential, h]
  · intro h
    simp [processBatchSequential, h]

/-- C4 (witness): the amended theorem applied with a flag that is set from
the sixth check onward: the boundary check stops the loop, and the per-file
check empties a batch. -/
theorem c4_witness :
    cancelFromCheckTwo 5 = true
    ∧ batchLoop poolAlwaysOk cancelFromCheckTwo hashFnConst 1 3 1 0 [["a.jpg"]]
        (LoopState.mk [] 0 0 [] 5)
      = { dmap := [], processed := 0, errors := 0, reports := [], t := 5 + 1 }
    ∧ processBatchSequential hashFnConst cancelFromCheckTwo 5 ["a.jpg", "b.jpg"]
      = ([], 5 + 1) :=
  ⟨by decide,
   (c4_cancellation_checked_per_file poolAlwaysOk cancelFromCheckTwo hashFnConst
     1 3 1 0 ["a.jpg"] [] (LoopState.mk [] 0 0 [] 5) "a.jpg" ["b.jpg"] 5).1 (by decide),
   (c4_cancellation_checked_per_file poolAlwaysOk cancelFromCheckTwo hashFnConst
     1 3 1 0 ["a.jpg"] [] (LoopState.mk [] 0 0 [] 5) "a.jpg" ["b.jpg"] 5).2.1 (by decide)⟩

/-- C5 (counterexample): the stats record returned for an empty folder does
NOT carry processed_files, errors, duplicate_groups, total_duplicates,
hash_algorithm or similarity_threshold — it has exactly the two keys
total_files and processing_time (and no key is named
processing_time_seconds). -/
theorem c5_counterexample :
    (findDuplicates 4 poolAlwaysOk neverCancel hashFnConst 0 0 0
        (DuplicateDetector.init 10 "average" "high") [] 0 none).stats.map Prod.fst
      = ["total_files", "processing_time"]
    ∧ (findDuplicates 4 poolAlwaysOk neverCancel hashFnConst 0 0 0
        (DuplicateDetector.init 10 "average" "high") [] 0 none).stats.lookup
        "processed_files" = none := by
  refine ⟨by decide, by decide⟩

/-- C5 (amended): when no eligible image files are found, `find_duplicates`
returns an empty group mapping and a zero-files stats record rather than an
error, but that early stats record carries only total_files (= 0) and
processing_time; the full set of keys — total_files, processed_files,
errors, videos_separated, processing_time, avg_time_per_file,
memory_usage_mb, hash_algorithm, similarity_threshold, duplicate_groups,
total_duplicates (the elapsed-time field is named processing_time, not
processing_time_seconds) — appears only on a run with at least one file. -/
theorem c5_empty_run_stats (cpuCount : Nat) (poolOk flag : Nat → Bool)
    (hashFn : FilePath' → FileOutcome) (elapsed memoryUsageMb memoryPercent : ℚ)
    (d : DuplicateDetector) (imageFiles : List FilePath') (numVideos : Nat)
    (chunkSizeArg : Option Nat) (hne : imageFiles ≠ []) :
    findDuplicates cpuCount poolOk flag hashFn elapsed memoryUsageMb memoryPercent
        d [] numVideos chunkSizeArg
      = { duplicateGroups := [],
          stats := [("total_files", StatVal.nat 0),
                    ("processing_time", StatVal.rat elapsed)],
          progressReports := [] }
    ∧ (findDuplicates cpuCount poolOk flag hashFn elapsed memoryUsageMb memoryPercent
        d imageFiles numVideos chunkSizeArg).stats.map Prod.fst
      = ["total_files", "processed_files", "errors", "videos_separated",
         "processing_time", "avg_time_per_file", "memory_usage_mb", "hash_algorithm",
         "similarity_threshold", "duplicate_groups", "total_duplicates"] := by
  constructor
  · simp [findDuplicates]
  · have h0 : imageFiles.length ≠ 0 := by
      simpa [List.length_eq_zero] using hne
    rw [findDuplicates_nonempty cpuCount poolOk flag hashFn elapsed memoryUsageMb
      memoryPercent d imageFiles numVideos chunkSizeArg h0]
    exact finishRun_stats_keys _ _ _ _ _ _ _ _ _

/-- C5 (witness): the amended theorem applied to a one-file folder. -/
theorem c5_witness :
    (["a.jpg"] : List FilePath') ≠ []
    ∧ (findDuplicates 4 poolAlwaysOk neverCancel hashFnConst 0 0 0
        (DuplicateDetector.init 10 "average" "high") [] 0 none).duplicateGroups = []
    ∧ (findDuplicates 4 poolAlwaysOk neverCancel hashFnConst 0 0 0
        (DuplicateDetector.init 10 "average" "high") ["a.jpg"] 0 none).stats.map Prod.fst
      = ["total_files", "processed_files", "errors", "videos_separated",
         "processing_time", "avg_time_per_file", "memory_usage_mb", "hash_algorithm",
         "similarity_threshold", "duplicate_groups", "total_duplicates"] := by
  have h := c5_empty_run_stats 4 poolAlwaysOk neverCancel hashFnConst 0 0 0
    (DuplicateDetector.init 10 "average" "high") ["a.jpg"] 0 none (by decide)
  exact ⟨by decide, by rw [h.1], h.2⟩

/-- C7: every duplicate group returned by `find_duplicates` — whether an
exact-match bucket or a merged near-duplicate group — has at least two
member files; no group of size 1 is ever emitted. -/
theorem c7_groups_have_two_members (cpuCount : Nat) (poolOk flag : Nat → Bool)
    (hashFn : FilePath' → FileOutcome) (elapsed memoryUsageMb memoryPercent : ℚ)
    (d : DuplicateDetector) (imageFiles : List FilePath') (numVideos : Nat)
    (chunkSizeArg : Option Nat) (g : Fingerprint × List FilePath')
    (hg : g ∈ (findDuplicates cpuCount poolOk flag hashFn elapsed memoryUsageMb
        memoryPercent d imageFiles numVideos chunkSizeArg).duplicateGroups) :
    2 ≤ g.2.length := by
  by_cases h0 : imageFiles.length = 0
  · simp only [findDuplicates] at hg
    rw [if_pos h0] at hg
    simp at hg
  · rw [findDuplicates_nonempty cpuCount poolOk flag hashFn elapsed memoryUsageMb
      memoryPercent d imageFiles numVideos chunkSizeArg h0] at hg
    simp only [finishRun] at hg
    exact groupsPipeline_mem _ _ g hg

/-- C7 (witness): the theorem applied to a run over two identical images,
whose single duplicate group has exactly two members. -/
theorem c7_witness :
    (fpFive, ["a.jpg", "b.jpg"])
      ∈ (findDuplicates 4 poolAlwaysOk neverCancel hashFnConst 0 0 0
        (DuplicateDetector.init 10 "average" "high") ["a.jpg", "b.jpg"] 0
        none).duplicateGroups
    ∧ 2 ≤ (["a.jpg", "b.jpg"] : List FilePath').length :=
  ⟨by decide,
   c7_groups_have_two_members 4 poolAlwaysOk neverCancel hashFnConst 0 0 0
     (DuplicateDetector.init 10 "average" "high") ["a.jpg", "b.jpg"] 0 none
     (fpFive, ["a.jpg", "b.jpg"]) (by decide)⟩

/-- C9: a failed worker-pool dispatch makes `_process_batch_multiprocessing`
return exactly what the sequential path returns for that batch, and a
cancellation-free run is insensitive to which batches' pools fail: the
returned groups, stats and progress reports are identical to those of a run
whose pools all work. -/
theorem c9_pool_failure_falls_back (hashFn : FilePath' → FileOutcome)
    (flag : Nat → Bool) (t : Nat) (paths : List FilePath') (cpuCount : Nat)
    (ok1 ok2 : Nat → Bool) (elapsed memoryUsageMb memoryPercent : ℚ)
    (d : DuplicateDetector) (imageFiles : List FilePath') (numVideos : Nat)
    (chunkSizeArg : Option Nat) :
    processBatchMultiprocessing false hashFn flag t paths
        = processBatchSequential hashFn flag t paths
    ∧ findDuplicates cpuCount ok1 (fun _ => false) hashFn elapsed memoryUsageMb
        memoryPercent d imageFiles numVideos chunkSizeArg
      = findDuplicates cpuCount ok2 (fun _ => false) hashFn elapsed memoryUsageMb
        memoryPercent d imageFiles numVideos chunkSizeArg := by
  constructor
  · simp [processBatchMultiprocessing]
  · by_cases h0 : imageFiles.length = 0
    · simp only [findDuplicates]
      rw [if_pos h0, if_pos h0]
    · rw [findDuplicates_nonempty cpuCount ok1 (fun _ => false) hashFn elapsed
        memoryUsageMb memoryPercent d imageFiles numVideos chunkSizeArg h0,
        findDuplicates_nonempty cpuCount ok2 (fun _ => false) hashFn elapsed
        memoryUsageMb memoryPercent d imageFiles numVideos chunkSizeArg h0]
      obtain ⟨hd, hp, he, hr⟩ := batchLoop_poolOk_irrel ok1 ok2 hashFn
        (performanceSettings d.performanceMode cpuCount).1 imageFiles.length
        (chunkList (effectiveChunkSize d cpuCount chunkSizeArg memoryPercent)
          imageFiles).length
        (chunkList (effectiveChunkSize d cpuCount chunkSizeArg memoryPercent) imageFiles)
        0 (LoopState.mk [] 0 0 [] 0) (LoopState.mk [] 0 0 [] 0) rfl rfl rfl rfl
      rw [hd, hp, he, hr]

end PictureFinder

namespace PictureFinder

/-- C10: constructing the hasher with a name outside the four supported
algorithms does not fail — the unrecognized name is silently replaced by the
average hash for every fingerprint computation, while the original name is
kept in the hasher and reported in the run statistics. -/
theorem c10_unknown_algorithm (alg : String)
    (halg : alg ∉ ["average", "perceptual", "difference", "wavelet"]) :
    (ImageHasher.init alg 8).hashFunction = HashAlg.average
    ∧ (ImageHasher.init alg 8).algorithm = alg
    ∧ (∀ (algHash : HashAlg → Nat → Nat → Fingerprint) (f : FileModel) (p : FilePath'),
        ImageHasher.hashFile algHash (ImageHasher.init alg 8) f p
          = ImageHasher.hashFile algHash (ImageHasher.init "average" 8) f p)
    ∧ (∀ (cpuCount : Nat) (poolOk flag : Nat → Bool) (hashFn : FilePath' → FileOutcome)
        (elapsed memoryUsageMb memoryPercent : ℚ) (t : Int) (mode : String)
        (files : List FilePath') (numVideos : Nat) (chunkSizeArg : Option Nat),
        files ≠ [] →
        (findDuplicates cpuCount poolOk flag hashFn elapsed memoryUsageMb memoryPercent
            (DuplicateDetector.init t alg mode) files numVideos chunkSizeArg).stats.lookup
          "hash_algorithm" = some (StatVal.str alg)) := by
  simp only [List.mem_cons, List.mem_singleton, not_or] at halg
  obtain ⟨h1, h2, h3, h4, -⟩ := halg
  have e1 : (alg == "average") = false := beq_eq_false_iff_ne.mpr h1
  have e2 : (alg == "perceptual") = false := beq_eq_false_iff_ne.mpr h2
  have e3 : (alg == "difference") = false := beq_eq_false_iff_ne.mpr h3
  have e4 : (alg == "wavelet") = false := beq_eq_false_iff_ne.mpr h4
  have hlookup : HASH_ALGORITHMS.lookup alg = none := by
    simp [HASH_ALGORITHMS, List.lookup, e1, e2, e3, e4]
  have havg : (HASH_ALGORITHMS.lookup "average").getD HashAlg.average
      = HashAlg.average := by decide
  refine ⟨by simp [ImageHasher.init, hlookup], rfl, ?_, ?_⟩
  · intro algHash f p
    simp [ImageHasher.hashFile, ImageHasher.init, hlookup, havg]
  · intro cpuCount poolOk flag hashFn elapsed memoryUsageMb memoryPercent t mode
      files numVideos chunkSizeArg hne
    have h0 : files.length ≠ 0 := by simpa [List.length_eq_zero] using hne
    rw [findDuplicates_nonempty _ _ _ _ _ _ _ _ _ _ _ h0,
      finishRun_lookup_hashAlgorithm]
    rfl

/-- C10 (witness): the theorem applied to the unsupported name md5, plus an
instantiation of its stats conjunct on a one-file run. -/
theorem c10_witness :
    "md5" ∉ ["average", "perceptual", "difference", "wavelet"]
    ∧ (ImageHasher.init "md5" 8).hashFunction = HashAlg.average
    ∧ (ImageHasher.init "md5" 8).algorithm = "md5"
    ∧ (findDuplicates 4 poolAlwaysOk neverCancel hashFnConst 0 0 0
        (DuplicateDetector.init 10 "md5" "high") ["a.jpg"] 0 none).stats.lookup
        "hash_algorithm" = some (StatVal.str "md5") :=
  ⟨by decide,
   (c10_unknown_algorithm "md5" (by decide)).1,
   (c10_unknown_algorithm "md5" (by decide)).2.1,
   (c10_unknown_algorithm "md5" (by decide)).2.2.2 4 poolAlwaysOk neverCancel
     hashFnConst 0 0 0 10 "high" ["a.jpg"] 0 none (by decide)⟩

end PictureFinder

namespace PictureFinder

theorem chunkList_1000_map_length :
    (chunkList 100 (mkFiles 1000)).map List.length = natChunksAux 100 1000 1000 := by
  unfold chunkList
  rw [chunkListAux_map_length, mkFiles_length]

theorem chunkList_1000_length : (chunkList 100 (mkFiles 1000)).length = 10 := by
  have h := congrArg List.length chunkList_1000_map_length
  rw [List.length_map] at h
  rw [h]
  decide

theorem run1000_reports (hashFn : FilePath' → FileOutcome) (poolOk : Nat → Bool)
    (cpuCount : Nat) (elapsed memoryUsageMb : ℚ) (numVideos : Nat) :
    (findDuplicates cpuCount poolOk neverCancel hashFn elapsed memoryUsageMb 0
        (DuplicateDetector.init 10 "average" "high") (mkFiles 1000) numVideos
        (some 100)).progressReports
      = expectedReports 1000 10 (natChunksAux 100 1000 1000) 0 0 := by
  have h0 : (mkFiles 1000).length ≠ 0 := by rw [mkFiles_length]; decide
  have hchunk : effectiveChunkSize (DuplicateDetector.init 10 "average" "high")
      cpuCount (some 100) 0 = 100 := by
    norm_num [effectiveChunkSize]
  have hnc : neverCancel = (fun _ : Nat => false) := rfl
  rw [findDuplicates_nonempty _ _ _ _ _ _ _ _ _ _ _ h0]
  simp only [finishRun]
  rw [hnc, hchunk, batchLoop_noflag_reports, chunkList_1000_map_length,
    chunkList_1000_length, mkFiles_length]
  simp

theorem run1000_processed (hashFn : FilePath' → FileOutcome) (poolOk : Nat → Bool)
    (cpuCount : Nat) (elapsed memoryUsageMb : ℚ) (numVideos : Nat) :
    (findDuplicates cpuCount poolOk neverCancel hashFn elapsed memoryUsageMb 0
        (DuplicateDetector.init 10 "average" "high") (mkFiles 1000) numVideos
        (some 100)).stats.lookup "processed_files" = some (StatVal.nat 1000) := by
  have h0 : (mkFiles 1000).length ≠ 0 := by rw [mkFiles_length]; decide
  have hchunk : effectiveChunkSize (DuplicateDetector.init 10 "average" "high")
      cpuCount (some 100) 0 = 100 := by
    norm_num [effectiveChunkSize]
  have hnc : neverCancel = (fun _ : Nat => false) := rfl
  rw [findDuplicates_nonempty _ _ _ _ _ _ _ _ _ _ _ h0, finishRun_lookup_processed]
  rw [hnc, hchunk, batchLoop_noflag_processed, chunkList_1000_map_length]
  decide

end PictureFinder

namespace PictureFinder

/-- C3 (counterexample): in a cancellation-free run over 1000 valid images
with batch size 100, the progress sink observes exactly 10 reports but the
reported completed count NEVER reaches 1000 — each report is issued before
its batch, so the counts are 0, 100, ..., 900. -/
theorem c3_counterexample :
    ((findDuplicates 4 poolAlwaysOk neverCancel hashFnConst 0 0 0
        (DuplicateDetector.init 10 "average" "high") (mkFiles 1000) 0
        (some 100)).progressReports.map (fun r => r.1)).all
        (fun c => decide (c ≠ 1000)) = true
    ∧ (findDuplicates 4 poolAlwaysOk neverCancel hashFnConst 0 0 0
        (DuplicateDetector.init 10 "average" "high") (mkFiles 1000) 0
        (some 100)).progressReports.length = 10 := by
  rw [run1000_reports hashFnConst poolAlwaysOk 4 0 0 0]
  refine ⟨by decide, by decide⟩

/-- C3 (amended): progress is reported to the sink once per batch, *before*
the batch is processed, as (files completed so far, total files, message);
for 1000 valid images with batch size 100 the sink observes exactly 10
reports whose completed counts are 0, 100, ..., 900 — monotonically
non-decreasing but never exceeding 900 — while the final stats record the
full 1000 processed files. -/
theorem c3_progress_before_each_batch (hashFn : FilePath' → FileOutcome)
    (poolOk : Nat → Bool) (cpuCount : Nat) (elapsed memoryUsageMb : ℚ)
    (numVideos : Nat) :
    ((findDuplicates cpuCount poolOk neverCancel hashFn elapsed memoryUsageMb 0
        (DuplicateDetector.init 10 "average" "high") (mkFiles 1000) numVideos
        (some 100)).progressReports.map (fun r => r.1))
      = (List.range 10).map (fun k => k * 100)
    ∧ (findDuplicates cpuCount poolOk neverCancel hashFn elapsed memoryUsageMb 0
        (DuplicateDetector.init 10 "average" "high") (mkFiles 1000) numVideos
        (some 100)).progressReports.length = 10
    ∧ List.Chain' (fun a b => a ≤ b)
        ((findDuplicates cpuCount poolOk neverCancel hashFn elapsed memoryUsageMb 0
          (DuplicateDetector.init 10 "average" "high") (mkFiles 1000) numVideos
          (some 100)).progressReports.map (fun r => r.1))
    ∧ ((findDuplicates cpuCount poolOk neverCancel hashFn elapsed memoryUsageMb 0
        (DuplicateDetector.init 10 "average" "high") (mkFiles 1000) numVideos
        (some 100)).progressReports.map (fun r => r.1)).all
        (fun c => decide (c ≤ 900)) = true
    ∧ (findDuplicates cpuCount poolOk neverCancel hashFn elapsed memoryUsageMb 0
        (DuplicateDetector.init 10 "average" "high") (mkFiles 1000) numVideos
        (some 100)).stats.lookup "processed_files" = some (StatVal.nat 1000) := by
  rw [run1000_reports hashFn poolOk cpuCount elapsed memoryUsageMb numVideos]
  have hlist : (expectedReports 1000 10 (natChunksAux 100 1000 1000) 0 0).map (fun r => r.1)
      = [0, 100, 200, 300, 400, 500, 600, 700, 800, 900] := by decide
  rw [hlist]
  exact ⟨by decide, by decide, by simp [List.chain'_cons, List.chain'_singleton],
    by decide, run1000_processed hashFn poolOk cpuCount elapsed memoryUsageMb numVideos⟩

end PictureFinder
